import Mathlib

/-!
# Verification of the snap-point normalization in useAnimatedSnapPoints

A shallow embedding of `src/hooks/useAnimatedSnapPoints.ts` from
react-native-bottom-sheet.  The hook derives, from a raw snap-point
specification and four live layout sizes, a normalized list of pixel snap
points, the index of the content-derived ("dynamic") snap point within
that list, and a boolean flag reporting whether any dynamic point exists.

Numbers are modelled as integers (`ℤ`): every property at stake is an
order/structure property and all concrete evaluations use integral sizes.
The diagnostic logging callback (`onLog`) has no control-flow significance
and is not modelled.
-/

namespace BottomSheet

/-- A raw snap point entry from the `snapPoints` prop: either a literal
pixel number or a percentage-of-container string such as "50%". -/
inductive SnapPointEntry : Type
  | px (v : ℤ)
  | pct (p : ℤ)
deriving DecidableEq, Repr

/-- Is this entry a percentage string?  Mirrors the JavaScript test
`typeof snapPoint === 'string'` on a snap-point entry. -/
def SnapPointEntry.isString : SnapPointEntry → Bool
  | .px _ => false
  | .pct _ => true

/-- The `snapPoints` prop: absent (`null`/`undefined`), a plain array, or a
shared value wrapping an array (the source distinguishes the latter by the
test `'value' in snapPoints`). -/
inductive SnapPointsProp : Type
  | absent
  | literal (entries : List SnapPointEntry)
  | shared (entries : List SnapPointEntry)
deriving DecidableEq, Repr

/-- `snapPoints ? ('value' in snapPoints ? snapPoints.value : snapPoints) : []`:
the raw entry list extracted from the prop (lines 48-52 of the source). -/
def extractSnapPoints : SnapPointsProp → List SnapPointEntry
  | .absent => []
  | .literal entries => entries
  | .shared entries => entries

/-- Modelled from the spec: `INITIAL_CONTAINER_HEIGHT` is imported from
`src/components/bottomSheet/constants`, which is not part of the provided
sources.  The spec describes it as the container height's initial (unset)
value; the repository defines these initial constants as -999. -/
def INITIAL_CONTAINER_HEIGHT : ℤ := -999

/-- Modelled from the spec: `INITIAL_HANDLE_HEIGHT` is imported from
`src/components/bottomSheet/constants`, not part of the provided sources.
The handle height's initial (unset) value; -999 in the repository. -/
def INITIAL_HANDLE_HEIGHT : ℤ := -999

/-- Modelled from the spec: `INITIAL_SNAP_POINT` is imported from
`src/components/bottomSheet/constants`, not part of the provided sources.
The sentinel snap point emitted while layout is not ready; -999 in the
repository. -/
def INITIAL_SNAP_POINT : ℤ := -999

/-- Modelled from the spec: `normalizeSnapPoint` lives in `src/utilities`,
which is not part of the provided sources.  The spec says "convert each raw
entry to pixels relative to container height" (percentage-to-pixel
conversion): a literal pixel entry passes through, a percentage entry
becomes that percentage of the container height. -/
def normalizeSnapPoint (snapPoint : SnapPointEntry) (containerHeight : ℤ) : ℤ :=
  match snapPoint with
  | .px v => v
  | .pct p => p * containerHeight / 100

/-- The full input state read by one recomputation of the derived value:
the `snapPoints` prop, the four live layout sizes (current values of the
shared values), and the two configuration props. -/
structure Inputs : Type where
  snapPoints : SnapPointsProp
  containerHeight : ℤ
  contentHeight : ℤ
  handleHeight : ℤ
  footerHeight : ℤ
  enableDynamicSizing : Bool
  maxDynamicContentSize : Option ℤ
deriving DecidableEq, Repr

/-- `_snapPoints.map(snapPoint => normalizeSnapPoint(snapPoint,
containerHeight.value))`: the element-wise normalization of the raw list
(lines 56-59 of the source). -/
def normalizedRaw (inp : Inputs) : List ℤ :=
  (extractSnapPoints inp.snapPoints).map
    (fun snapPoint => normalizeSnapPoint snapPoint inp.containerHeight)

/-- The content-derived snap point (lines 79-86 of the source):
`containerHeight.value - Math.min(contentHeight.value + handleHeight.value
+ footerHeight.value, maxDynamicContentSize !== undefined ?
maxDynamicContentSize : containerHeight.value)`. -/
def dynamicSnapPoint (inp : Inputs) : ℤ :=
  inp.containerHeight -
    min (inp.contentHeight + inp.handleHeight + inp.footerHeight)
      (match inp.maxDynamicContentSize with
        | some cap => cap
        | none => inp.containerHeight)

/-- Lines 90-92 of the source: push the dynamic snap point into the
normalized list only if it is not already included. -/
def withDynamic (inp : Inputs) : List ℤ :=
  if (normalizedRaw inp).contains (dynamicSnapPoint inp) then
    normalizedRaw inp
  else
    normalizedRaw inp ++ [dynamicSnapPoint inp]

/-- `_normalizedSnapPoints.sort((a, b) => b - a)` (line 95 of the source):
sort descending.  The JavaScript sort is stable, as is insertion sort; on
a list of numbers equal elements are indistinguishable, so any descending
sort is an exact model. -/
def sortDesc (l : List ℤ) : List ℤ :=
  l.insertionSort (fun a b => a ≥ b)

/-- `Array.prototype.indexOf`: index of the first occurrence of `x`, or -1
if `x` does not occur (line 98 of the source). -/
def jsIndexOf (l : List ℤ) (x : ℤ) : ℤ :=
  match l with
  | [] => -1
  | y :: ys =>
    if y = x then 0
    else
      match jsIndexOf ys x with
      | -1 => -1
      | r => r + 1

/-- The list returned by the `normalizedSnapPoints` derived value
(lines 38-102 of the source), branch for branch:
container layout not ready gives the sentinel list; dynamic sizing off
gives the normalized raw list as produced; handle or content not measured
gives the sentinel list; otherwise the normalized raw list with the
dynamic snap point pushed (if absent) and sorted descending. -/
def normalizedSnapPoints (inp : Inputs) : List ℤ :=
  if inp.containerHeight = INITIAL_CONTAINER_HEIGHT then
    [INITIAL_SNAP_POINT]
  else if inp.enableDynamicSizing = false then
    normalizedRaw inp
  else if inp.handleHeight = INITIAL_HANDLE_HEIGHT then
    [INITIAL_SNAP_POINT]
  else if inp.contentHeight = INITIAL_CONTAINER_HEIGHT then
    [INITIAL_SNAP_POINT]
  else
    sortDesc (withDynamic inp)

/-- The effect of one recomputation on the `dynamicSnapPointIndex` shared
value (lines 37 and 97-99 of the source): every early-exit branch returns
without touching it, and the final branch assigns
`_normalizedSnapPoints.indexOf(dynamicSnapPoint)` on the sorted list. -/
def nextDynamicSnapPointIndex (inp : Inputs) (prev : ℤ) : ℤ :=
  if inp.containerHeight = INITIAL_CONTAINER_HEIGHT then
    prev
  else if inp.enableDynamicSizing = false then
    prev
  else if inp.handleHeight = INITIAL_HANDLE_HEIGHT then
    prev
  else if inp.contentHeight = INITIAL_CONTAINER_HEIGHT then
    prev
  else
    jsIndexOf (sortDesc (withDynamic inp)) (dynamicSnapPoint inp)

/-- The guard of the final (full dynamic-sizing) branch: container layout
ready, dynamic sizing on, handle and content measured. -/
def fullBranch (inp : Inputs) : Bool :=
  decide (inp.containerHeight ≠ INITIAL_CONTAINER_HEIGHT) &&
  inp.enableDynamicSizing &&
  decide (inp.handleHeight ≠ INITIAL_HANDLE_HEIGHT) &&
  decide (inp.contentHeight ≠ INITIAL_CONTAINER_HEIGHT)

/-- The `hasDynamicSnapPoint` derived value (lines 114-140 of the source):
true when dynamic sizing is enabled; otherwise true when the extracted
list is non-empty and `find` locates a string entry; otherwise false. -/
def hasDynamicSnapPoint (inp : Inputs) : Bool :=
  if inp.enableDynamicSizing then
    true
  else
    if (extractSnapPoints inp.snapPoints).length ≠ 0 &&
        ((extractSnapPoints inp.snapPoints).any
          (fun snapPoint => snapPoint.isString)) then
      true
    else
      false

/-- One observable state of the hook: the inputs of the most recent
recomputation, the `dynamicSnapPointIndex` shared value, and the list the
derived value most recently produced. -/
structure HookState : Type where
  inputs : Inputs
  dynamicSnapPointIndex : ℤ
  normalized : List ℤ
deriving DecidableEq, Repr

/-- One recomputation step: a dependency changed to yield the input
snapshot `inp`; the derived value recomputes the list and conditionally
writes the index shared value. -/
def stepWith (inp : Inputs) (s : HookState) : HookState :=
  { inputs := inp
    dynamicSnapPointIndex := nextDynamicSnapPointIndex inp s.dynamicSnapPointIndex
    normalized := normalizedSnapPoints inp }

/-- Reachable states of the recomputation step relation.
`dynamicSnapPointIndex` is created holding -1 (`useSharedValue(-1)`, line
37) and the derived value runs immediately on the inputs it is created
with; every later state results from a recomputation on fresh inputs. -/
inductive Reachable : HookState → Prop
  | init (inp : Inputs) :
      Reachable (stepWith inp { inputs := inp, dynamicSnapPointIndex := -1, normalized := [] })
  | step (inp : Inputs) (s : HookState) :
      Reachable s → Reachable (stepWith inp s)

/-! ## Concrete input states used by witnesses and counterexamples -/

/-- A full-dynamic-branch input whose raw list holds the dynamic point twice:
container 1000, content 450, handle 50, footer 0, so the dynamic point is
1000 - min(500, 1000) = 500, already present twice in the raw list. -/
def inpDup : Inputs := ⟨.literal [.px 500, .px 500], 1000, 450, 50, 0, true, none⟩

/-- A full-dynamic-branch input with every measurement ready whose computed
dynamic point is 1000 - min(2010, 1999) = -999, the sentinel value. -/
def inpCap : Inputs := ⟨.absent, 1000, 2000, 10, 0, true, some 1999⟩

/-- Container ready, dynamic sizing off, raw points in ascending order. -/
def inpAsc : Inputs := ⟨.literal [.px 100, .px 200], 1000, 0, 0, 0, false, none⟩

/-- A representative full-dynamic-branch input: dynamic point
1000 - min(950, 1000) = 50, sorted result [200, 100, 50], index 2. -/
def inpFull : Inputs := ⟨.literal [.px 100, .px 200], 1000, 900, 50, 0, true, none⟩

/-- Container height back at its initial value: layout not ready. -/
def inpUnready : Inputs := ⟨.absent, -999, 900, 50, 0, true, none⟩

/-- Container ready, dynamic sizing off, one literal and one percentage entry. -/
def inpOffPct : Inputs := ⟨.literal [.px 100, .pct 50], 1000, 0, 0, 0, false, none⟩

/-- Absent snap-point spec with dynamic sizing on and all measurements ready. -/
def inpAbsent : Inputs := ⟨.absent, 1000, 300, 50, 0, true, none⟩

/-- Nothing measured yet: container, content and handle at initial values. -/
def inpInit : Inputs := ⟨.absent, -999, -999, -999, 0, true, none⟩

/-- The state after the hook's first recomputation on `inpFull`. -/
def stateFull : HookState :=
  stepWith inpFull { inputs := inpFull, dynamicSnapPointIndex := -1, normalized := [] }

/-- The state after `stateFull` once the container reports unready again:
the index keeps its stale value 2 while the list shrinks to the sentinel. -/
def stateStale : HookState := stepWith inpUnready stateFull

/-- The invariant the stored index actually maintains: it is -1 (its
creation value, never yet written), or it was written by some recomputation
that took the full dynamic-sizing branch, and for the list and dynamic
point of that recomputation it is an in-range position holding the dynamic
point. -/
def IndexInv (s : HookState) : Prop :=
  s.dynamicSnapPointIndex = -1 ∨
    ∃ inp : Inputs, fullBranch inp = true ∧
      s.dynamicSnapPointIndex =
        jsIndexOf (normalizedSnapPoints inp) (dynamicSnapPoint inp) ∧
      0 ≤ s.dynamicSnapPointIndex ∧
      s.dynamicSnapPointIndex.toNat < (normalizedSnapPoints inp).length ∧
      (normalizedSnapPoints inp).get? s.dynamicSnapPointIndex.toNat =
        some (dynamicSnapPoint inp)


/-! ## Helper lemmas -/

lemma fullBranch_iff (inp : Inputs) :
    fullBranch inp = true ↔
      inp.containerHeight ≠ INITIAL_CONTAINER_HEIGHT ∧
        inp.enableDynamicSizing = true ∧
        inp.handleHeight ≠ INITIAL_HANDLE_HEIGHT ∧
        inp.contentHeight ≠ INITIAL_CONTAINER_HEIGHT := by
  simp [fullBranch, and_assoc]

lemma sortDesc_sorted (l : List ℤ) :
    List.Sorted (fun a b => a ≥ b) (sortDesc l) :=
  List.sorted_insertionSort _ l

lemma sortDesc_perm (l : List ℤ) : List.Perm (sortDesc l) l :=
  List.perm_insertionSort _ l

lemma mem_sortDesc {x : ℤ} {l : List ℤ} : x ∈ sortDesc l ↔ x ∈ l :=
  (sortDesc_perm l).mem_iff

lemma count_sortDesc (x : ℤ) (l : List ℤ) :
    (sortDesc l).count x = l.count x :=
  (sortDesc_perm l).count_eq x

lemma normalizedSnapPoints_of_fullBranch {inp : Inputs}
    (h : fullBranch inp = true) :
    normalizedSnapPoints inp = sortDesc (withDynamic inp) := by
  obtain ⟨h1, h2, h3, h4⟩ := (fullBranch_iff inp).mp h
  simp [normalizedSnapPoints, h1, h2, h3, h4]

lemma nextDynamicSnapPointIndex_of_fullBranch {inp : Inputs}
    (h : fullBranch inp = true) (prev : ℤ) :
    nextDynamicSnapPointIndex inp prev =
      jsIndexOf (normalizedSnapPoints inp) (dynamicSnapPoint inp) := by
  obtain ⟨h1, h2, h3, h4⟩ := (fullBranch_iff inp).mp h
  simp [nextDynamicSnapPointIndex, normalizedSnapPoints, h1, h2, h3, h4]

lemma nextDynamicSnapPointIndex_of_not_fullBranch {inp : Inputs}
    (h : fullBranch inp = false) (prev : ℤ) :
    nextDynamicSnapPointIndex inp prev = prev := by
  unfold nextDynamicSnapPointIndex
  split_ifs with h1 h2 h3 h4
  · rfl
  · rfl
  · rfl
  · rfl
  · exfalso
    have hfull : fullBranch inp = true :=
      (fullBranch_iff inp).mpr ⟨h1, by simpa using h2, h3, h4⟩
    rw [hfull] at h
    exact absurd h (by simp)

lemma dynamic_mem_withDynamic (inp : Inputs) :
    dynamicSnapPoint inp ∈ withDynamic inp := by
  unfold withDynamic
  split
  · next h => simpa using h
  · exact List.mem_append_right _ (List.mem_singleton.mpr rfl)

lemma count_dynamic_withDynamic {inp : Inputs}
    (h : (normalizedRaw inp).count (dynamicSnapPoint inp) ≤ 1) :
    (withDynamic inp).count (dynamicSnapPoint inp) = 1 := by
  unfold withDynamic
  split
  · next hc =>
    have hmem : dynamicSnapPoint inp ∈ normalizedRaw inp := by simpa using hc
    have hpos : 0 < (normalizedRaw inp).count (dynamicSnapPoint inp) :=
      List.count_pos_iff.mpr hmem
    omega
  · next hc =>
    have hmem : dynamicSnapPoint inp ∉ normalizedRaw inp := by
      intro hm
      exact hc (by simpa using hm)
    rw [List.count_append, List.count_eq_zero.mpr hmem]
    simp

lemma jsIndexOf_spec {x : ℤ} {l : List ℤ} (h : x ∈ l) :
    0 ≤ jsIndexOf l x ∧ (jsIndexOf l x).toNat < l.length ∧
      l.get? (jsIndexOf l x).toNat = some x := by
  induction l with
  | nil => simp at h
  | cons y ys ih =>
    by_cases hy : y = x
    · simp [jsIndexOf, hy]
    · have hx : x ∈ ys := by
        rcases List.mem_cons.mp h with h1 | h1
        · exact absurd h1.symm hy
        · exact h1
      obtain ⟨h0, hlt, hget⟩ := ih hx
      rw [jsIndexOf, if_neg hy]
      split
      · next heq => rw [heq] at h0; omega
      · next heq =>
        have htn : (jsIndexOf ys x + 1).toNat = (jsIndexOf ys x).toNat + 1 := by
          omega
        refine ⟨by omega, ?_, ?_⟩
        · rw [htn]
          simp only [List.length_cons]
          omega
        · rw [htn]
          simpa using hget

lemma fullBranch_index_facts {inp : Inputs} (h : fullBranch inp = true) :
    0 ≤ jsIndexOf (normalizedSnapPoints inp) (dynamicSnapPoint inp) ∧
      (jsIndexOf (normalizedSnapPoints inp) (dynamicSnapPoint inp)).toNat <
        (normalizedSnapPoints inp).length ∧
      (normalizedSnapPoints inp).get?
          (jsIndexOf (normalizedSnapPoints inp) (dynamicSnapPoint inp)).toNat =
        some (dynamicSnapPoint inp) := by
  apply jsIndexOf_spec
  rw [normalizedSnapPoints_of_fullBranch h]
  exact mem_sortDesc.mpr (dynamic_mem_withDynamic inp)

lemma indexInv_stepWith (inp : Inputs) (s : HookState) (h : IndexInv s) :
    IndexInv (stepWith inp s) := by
  cases hf : fullBranch inp with
  | false =>
    have hidx : (stepWith inp s).dynamicSnapPointIndex = s.dynamicSnapPointIndex :=
      nextDynamicSnapPointIndex_of_not_fullBranch hf _
    unfold IndexInv at h ⊢
    rw [hidx]
    exact h
  | true =>
    have hidx : (stepWith inp s).dynamicSnapPointIndex =
        jsIndexOf (normalizedSnapPoints inp) (dynamicSnapPoint inp) :=
      nextDynamicSnapPointIndex_of_fullBranch hf _
    obtain ⟨f1, f2, f3⟩ := fullBranch_index_facts hf
    right
    exact ⟨inp, hf, hidx, hidx ▸ f1, hidx ▸ f2, hidx ▸ f3⟩

lemma stepWith_full_facts (inp : Inputs) (s0 : HookState)
    (hf : fullBranch inp = true) :
    0 ≤ (stepWith inp s0).dynamicSnapPointIndex ∧
      (stepWith inp s0).dynamicSnapPointIndex.toNat <
        (stepWith inp s0).normalized.length ∧
      (stepWith inp s0).normalized.get?
          (stepWith inp s0).dynamicSnapPointIndex.toNat =
        some (dynamicSnapPoint (stepWith inp s0).inputs) := by
  have hidx : (stepWith inp s0).dynamicSnapPointIndex =
      jsIndexOf (normalizedSnapPoints inp) (dynamicSnapPoint inp) :=
    nextDynamicSnapPointIndex_of_fullBranch hf _
  have hnorm : (stepWith inp s0).normalized = normalizedSnapPoints inp := rfl
  have hin : (stepWith inp s0).inputs = inp := rfl
  rw [hidx, hnorm, hin]
  exact fullBranch_index_facts hf

/-! ## Claim theorems -/

/-- Claim C1, counterexample: with dynamic sizing on and all measurements
ready, the dynamic snap point is NOT always contained exactly once: when
the raw list already holds the dynamic value twice, the result holds it
twice. -/
theorem C1_counterexample :
    fullBranch inpDup = true ∧
      normalizedSnapPoints inpDup = [500, 500] ∧
      (normalizedSnapPoints inpDup).count (dynamicSnapPoint inpDup) = 2 ∧
      (normalizedSnapPoints inpDup).count (dynamicSnapPoint inpDup) ≠ 1 := by
  decide

/-- Claim C1, amended: with dynamic sizing enabled and container, handle
and content measurements ready, the returned list contains the computed
dynamic snap point, is sorted in descending order, and contains the
dynamic point exactly once whenever the normalized raw list does not
already contain it more than once. -/
theorem C1_dynamic_included_and_sorted (inp : Inputs)
    (h : fullBranch inp = true) :
    dynamicSnapPoint inp ∈ normalizedSnapPoints inp ∧
      List.Sorted (fun a b => a ≥ b) (normalizedSnapPoints inp) ∧
      ((normalizedRaw inp).count (dynamicSnapPoint inp) ≤ 1 →
        (normalizedSnapPoints inp).count (dynamicSnapPoint inp) = 1) := by
  rw [normalizedSnapPoints_of_fullBranch h]
  refine ⟨mem_sortDesc.mpr (dynamic_mem_withDynamic inp), sortDesc_sorted _, ?_⟩
  intro hle
  rw [count_sortDesc]
  exact count_dynamic_withDynamic hle

/-- Witness for claim C1 at the concrete input `inpFull`. -/
theorem C1_dynamic_included_and_sorted_witness :
    fullBranch inpFull = true ∧
      (dynamicSnapPoint inpFull ∈ normalizedSnapPoints inpFull ∧
        List.Sorted (fun a b => a ≥ b) (normalizedSnapPoints inpFull) ∧
        ((normalizedRaw inpFull).count (dynamicSnapPoint inpFull) ≤ 1 →
          (normalizedSnapPoints inpFull).count (dynamicSnapPoint inpFull) = 1)) :=
  ⟨by decide, C1_dynamic_included_and_sorted inpFull (by decide)⟩

/-- Claim C2: with dynamic sizing enabled and all measurements ready, the
computed dynamic snap point equals containerHeight minus the minimum of
(contentHeight + handleHeight + footerHeight) and (maxDynamicContentSize
when defined, otherwise containerHeight); and that value enters the
returned list. -/
theorem C2_dynamic_point_formula (inp : Inputs) (h : fullBranch inp = true) :
    dynamicSnapPoint inp =
      inp.containerHeight -
        min (inp.contentHeight + inp.handleHeight + inp.footerHeight)
          (inp.maxDynamicContentSize.getD inp.containerHeight) ∧
      dynamicSnapPoint inp ∈ normalizedSnapPoints inp := by
  constructor
  · cases hcap : inp.maxDynamicContentSize <;> simp [dynamicSnapPoint, hcap]
  · rw [normalizedSnapPoints_of_fullBranch h]
    exact mem_sortDesc.mpr (dynamic_mem_withDynamic inp)

/-- Witness for claim C2 at the concrete input `inpCap`. -/
theorem C2_dynamic_point_formula_witness :
    fullBranch inpCap = true ∧
      (dynamicSnapPoint inpCap =
        inpCap.containerHeight -
          min (inpCap.contentHeight + inpCap.handleHeight + inpCap.footerHeight)
            (inpCap.maxDynamicContentSize.getD inpCap.containerHeight) ∧
        dynamicSnapPoint inpCap ∈ normalizedSnapPoints inpCap) :=
  ⟨by decide, C2_dynamic_point_formula inpCap (by decide)⟩

/-- Claim C3, counterexample: the sentinel list is not returned ONLY when
layout is not ready.  At `inpCap` container, handle and content are all
measured and dynamic sizing is on, yet the computed dynamic point happens
to equal the sentinel value, so the result is exactly the one-element
sentinel list. -/
theorem C3_counterexample :
    inpCap.containerHeight ≠ INITIAL_CONTAINER_HEIGHT ∧
      inpCap.enableDynamicSizing = true ∧
      inpCap.handleHeight ≠ INITIAL_HANDLE_HEIGHT ∧
      inpCap.contentHeight ≠ INITIAL_CONTAINER_HEIGHT ∧
      normalizedSnapPoints inpCap = [INITIAL_SNAP_POINT] := by
  decide

/-- Claim C3, amended: whenever container height equals its initial value,
or dynamic sizing is enabled and handle height or content height equals
its initial value, the result is the one-element sentinel list.  (The
converse fails: a ready state may coincidentally produce the same list.) -/
theorem C3_sentinel_when_not_ready (inp : Inputs)
    (h : inp.containerHeight = INITIAL_CONTAINER_HEIGHT ∨
      (inp.enableDynamicSizing = true ∧
        (inp.handleHeight = INITIAL_HANDLE_HEIGHT ∨
          inp.contentHeight = INITIAL_CONTAINER_HEIGHT))) :
    normalizedSnapPoints inp = [INITIAL_SNAP_POINT] := by
  unfold normalizedSnapPoints
  split_ifs with a b c d
  · rfl
  · exfalso
    rcases h with h1 | ⟨h2, _⟩
    · exact a h1
    · rw [h2] at b
      exact absurd b (by simp)
  · rfl
  · rfl
  · exfalso
    rcases h with h1 | ⟨h2, h3 | h4⟩
    · exact a h1
    · exact c h3
    · exact d h4

/-- Witness for claim C3 at the concrete input `inpInit`. -/
theorem C3_sentinel_when_not_ready_witness :
    (inpInit.containerHeight = INITIAL_CONTAINER_HEIGHT ∨
      (inpInit.enableDynamicSizing = true ∧
        (inpInit.handleHeight = INITIAL_HANDLE_HEIGHT ∨
          inpInit.contentHeight = INITIAL_CONTAINER_HEIGHT))) ∧
      normalizedSnapPoints inpInit = [INITIAL_SNAP_POINT] :=
  ⟨by decide, C3_sentinel_when_not_ready inpInit (by decide)⟩

/-- Claim C4: with container layout ready and dynamic sizing disabled, the
result is exactly the element-wise normalization of the raw snap point
list, in raw order, with nothing added, removed or sorted. -/
theorem C4_dynamic_off_returns_normalized_raw (inp : Inputs)
    (hc : inp.containerHeight ≠ INITIAL_CONTAINER_HEIGHT)
    (hd : inp.enableDynamicSizing = false) :
    normalizedSnapPoints inp =
      (extractSnapPoints inp.snapPoints).map
        (fun snapPoint => normalizeSnapPoint snapPoint inp.containerHeight) := by
  unfold normalizedSnapPoints
  rw [if_neg hc, if_pos hd]
  rfl

/-- Witness for claim C4 at the concrete input `inpOffPct`. -/
theorem C4_dynamic_off_returns_normalized_raw_witness :
    (inpOffPct.containerHeight ≠ INITIAL_CONTAINER_HEIGHT ∧
        inpOffPct.enableDynamicSizing = false) ∧
      normalizedSnapPoints inpOffPct =
        (extractSnapPoints inpOffPct.snapPoints).map
          (fun snapPoint => normalizeSnapPoint snapPoint inpOffPct.containerHeight) :=
  ⟨⟨by decide, by decide⟩,
    C4_dynamic_off_returns_normalized_raw inpOffPct (by decide) (by decide)⟩

/-- Claim C5, counterexample: the returned sequence is NOT sorted
descending for every input state: with dynamic sizing off the raw order is
kept, so an ascending raw list comes back ascending. -/
theorem C5_counterexample :
    normalizedSnapPoints inpAsc = [100, 200] ∧
      ¬ List.Sorted (fun a b => a ≥ b) (normalizedSnapPoints inpAsc) := by
  decide

/-- Claim C5, amended: for every input state with dynamic sizing enabled,
the returned sequence is sorted in descending order (the early-exit
branches return the one-element sentinel list, which is trivially sorted;
with dynamic sizing disabled the raw order is kept instead). -/
theorem C5_sorted_when_dynamic (inp : Inputs)
    (h : inp.enableDynamicSizing = true) :
    List.Sorted (fun a b => a ≥ b) (normalizedSnapPoints inp) := by
  unfold normalizedSnapPoints
  split_ifs with a b c d
  · simp
  · rw [h] at b
    exact absurd b (by simp)
  · simp
  · simp
  · exact sortDesc_sorted _

/-- Witness for claim C5 at the concrete input `inpAbsent`. -/
theorem C5_sorted_when_dynamic_witness :
    inpAbsent.enableDynamicSizing = true ∧
      List.Sorted (fun a b => a ≥ b) (normalizedSnapPoints inpAbsent) :=
  ⟨by decide, C5_sorted_when_dynamic inpAbsent (by decide)⟩

/-- Claim C6, counterexample: it is NOT the case that in every reachable
state the stored index is -1 or an in-range position of the current list
holding the current dynamic value: after a full recomputation writes
index 2, a later not-ready recomputation shrinks the list to the sentinel
singleton while the index stays 2. -/
theorem C6_counterexample :
    ¬ (∀ s : HookState, Reachable s →
        s.dynamicSnapPointIndex = -1 ∨
          (0 ≤ s.dynamicSnapPointIndex ∧
            s.dynamicSnapPointIndex.toNat < s.normalized.length ∧
            s.normalized.get? s.dynamicSnapPointIndex.toNat =
              some (dynamicSnapPoint s.inputs))) := by
  intro hall
  have h := hall stateStale
    (Reachable.step inpUnready stateFull (Reachable.init inpFull))
  exact absurd h (by decide)

/-- Claim C6, amended: in every reachable state the stored index is -1
(never yet written), or it was written by a recomputation that took the
full dynamic-sizing branch and is an in-range position, holding the
dynamic value, of the list produced by that recomputation; in particular,
whenever the most recent recomputation took the full branch, the index is
an in-range position of the current list and the element there is the
dynamic point of the current inputs. -/
theorem C6_index_invariant (s : HookState) (h : Reachable s) :
    IndexInv s ∧
      (fullBranch s.inputs = true →
        0 ≤ s.dynamicSnapPointIndex ∧
          s.dynamicSnapPointIndex.toNat < s.normalized.length ∧
          s.normalized.get? s.dynamicSnapPointIndex.toNat =
            some (dynamicSnapPoint s.inputs)) := by
  induction h with
  | init inp =>
    exact ⟨indexInv_stepWith inp _ (Or.inl rfl),
      fun hf => stepWith_full_facts inp _ hf⟩
  | step inp s hr ih =>
    exact ⟨indexInv_stepWith inp s ih.1,
      fun hf => stepWith_full_facts inp s hf⟩

/-- Witness for claim C6 at the concrete reachable state `stateFull`. -/
theorem C6_index_invariant_witness :
    Reachable stateFull ∧
      (IndexInv stateFull ∧
        (fullBranch stateFull.inputs = true →
          0 ≤ stateFull.dynamicSnapPointIndex ∧
            stateFull.dynamicSnapPointIndex.toNat < stateFull.normalized.length ∧
            stateFull.normalized.get? stateFull.dynamicSnapPointIndex.toNat =
              some (dynamicSnapPoint stateFull.inputs))) :=
  ⟨Reachable.init inpFull, C6_index_invariant stateFull (Reachable.init inpFull)⟩

/-- Claim C7: the has-dynamic-snap-point flag is true exactly when dynamic
sizing is enabled or some raw entry is a percentage string, regardless of
the dynamic-sizing flag. -/
theorem C7_hasDynamicSnapPoint_iff (inp : Inputs) :
    hasDynamicSnapPoint inp = true ↔
      (inp.enableDynamicSizing = true ∨
        ∃ e ∈ extractSnapPoints inp.snapPoints, e.isString = true) := by
  unfold hasDynamicSnapPoint
  cases hdyn : inp.enableDynamicSizing with
  | true => simp
  | false =>
    simp only [Bool.false_eq_true, if_false, false_or]
    constructor
    · intro h
      split_ifs at h with hcond
      rcases Bool.and_eq_true_iff.mp hcond with ⟨_, hany⟩
      simpa using hany
    · intro h
      have hne : extractSnapPoints inp.snapPoints ≠ [] := by
        obtain ⟨e, he, _⟩ := h
        intro hnil
        rw [hnil] at he
        simp at he
      rw [if_pos]
      rw [Bool.and_eq_true_iff]
      constructor
      · simpa using fun hlen => hne (List.length_eq_zero.mp hlen)
      · simpa using h

/-- Claim C8: every early-exit branch of the recomputation (container not
ready, dynamic sizing disabled, handle not ready, content not ready)
leaves the stored dynamic snap point index unchanged; only the full
dynamic-sizing branch writes it, with the located index of the dynamic
point in the sorted list. -/
theorem C8_early_exit_preserves_index (inp : Inputs) (prev : ℤ) :
    (fullBranch inp = false → nextDynamicSnapPointIndex inp prev = prev) ∧
      (fullBranch inp = true →
        nextDynamicSnapPointIndex inp prev =
          jsIndexOf (normalizedSnapPoints inp) (dynamicSnapPoint inp)) :=
  ⟨fun h => nextDynamicSnapPointIndex_of_not_fullBranch h prev,
    fun h => nextDynamicSnapPointIndex_of_fullBranch h prev⟩

/-- Witness for claim C8 at the concrete input `inpAsc` with stored
index 7. -/
theorem C8_early_exit_preserves_index_witness :
    fullBranch inpAsc = false ∧ nextDynamicSnapPointIndex inpAsc 7 = 7 :=
  ⟨by decide, (C8_early_exit_preserves_index inpAsc 7).1 (by decide)⟩

/-- Claim C9: with dynamic sizing enabled, all measurements ready, no
maxDynamicContentSize cap, and nonnegative content, handle and footer
heights, the computed dynamic snap point is nonnegative. -/
theorem C9_dynamic_point_nonneg (inp : Inputs) (_h : fullBranch inp = true)
    (hcap : inp.maxDynamicContentSize = none)
    (_hcontent : 0 ≤ inp.contentHeight) (_hhandle : 0 ≤ inp.handleHeight)
    (_hfooter : 0 ≤ inp.footerHeight) :
    0 ≤ dynamicSnapPoint inp := by
  unfold dynamicSnapPoint
  rw [hcap]
  exact sub_nonneg.mpr (min_le_right _ _)

/-- Witness for claim C9 at the concrete input `inpFull`. -/
theorem C9_dynamic_point_nonneg_witness :
    (fullBranch inpFull = true ∧ inpFull.maxDynamicContentSize = none ∧
        0 ≤ inpFull.contentHeight ∧ 0 ≤ inpFull.handleHeight ∧
        0 ≤ inpFull.footerHeight) ∧
      0 ≤ dynamicSnapPoint inpFull :=
  ⟨⟨by decide, by decide, by decide, by decide, by decide⟩,
    C9_dynamic_point_nonneg inpFull (by decide) (by decide) (by decide)
      (by decide) (by decide)⟩

/-- Claim C10: an absent snap-point spec is treated as the empty list:
with dynamic sizing off and container ready the result is empty, and with
dynamic sizing on and all measurements ready the result is the one-element
list holding the dynamic snap point, with the recorded index 0. -/
theorem C10_absent_treated_as_empty (inp : Inputs) (prev : ℤ)
    (habs : inp.snapPoints = SnapPointsProp.absent)
    (hc : inp.containerHeight ≠ INITIAL_CONTAINER_HEIGHT) :
    (inp.enableDynamicSizing = false → normalizedSnapPoints inp = []) ∧
      (inp.enableDynamicSizing = true →
        inp.handleHeight ≠ INITIAL_HANDLE_HEIGHT →
        inp.contentHeight ≠ INITIAL_CONTAINER_HEIGHT →
        normalizedSnapPoints inp = [dynamicSnapPoint inp] ∧
          nextDynamicSnapPointIndex inp prev = 0) := by
  have hraw : normalizedRaw inp = [] := by
    simp [normalizedRaw, habs, extractSnapPoints]
  constructor
  · intro hd
    unfold normalizedSnapPoints
    rw [if_neg hc, if_pos hd]
    exact hraw
  · intro hd hh hcon
    have hw : withDynamic inp = [dynamicSnapPoint inp] := by
      unfold withDynamic
      rw [hraw]
      simp
    have hsort : sortDesc [dynamicSnapPoint inp] = [dynamicSnapPoint inp] := rfl
    constructor
    · unfold normalizedSnapPoints
      rw [if_neg hc, if_neg (by simp [hd]), if_neg hh, if_neg hcon, hw, hsort]
    · unfold nextDynamicSnapPointIndex
      rw [if_neg hc, if_neg (by simp [hd]), if_neg hh, if_neg hcon, hw, hsort]
      simp [jsIndexOf]

/-- Witness for claim C10 at the concrete input `inpAbsent` with stored
index 7. -/
theorem C10_absent_treated_as_empty_witness :
    (inpAbsent.snapPoints = SnapPointsProp.absent ∧
        inpAbsent.containerHeight ≠ INITIAL_CONTAINER_HEIGHT) ∧
      ((inpAbsent.enableDynamicSizing = false →
          normalizedSnapPoints inpAbsent = []) ∧
        (inpAbsent.enableDynamicSizing = true →
          inpAbsent.handleHeight ≠ INITIAL_HANDLE_HEIGHT →
          inpAbsent.contentHeight ≠ INITIAL_CONTAINER_HEIGHT →
          normalizedSnapPoints inpAbsent = [dynamicSnapPoint inpAbsent] ∧
            nextDynamicSnapPointIndex inpAbsent 7 = 0)) :=
  ⟨⟨by decide, by decide⟩,
    C10_absent_treated_as_empty inpAbsent 7 (by decide) (by decide)⟩

end BottomSheet
